import Mathlib

/-!
Verification of the identity and session lifecycle subsystem of the MCP
webinar demo server (`server/storage.py`, `server/auth/session.py`,
`server/auth/oauth.py`).

Shallow embedding conventions:
* Timestamps (`datetime.utcnow()` values) are modelled as `Int` seconds;
  `timedelta(minutes=5)` is `300`, `timedelta(hours=h)` is `h * 3600`.
  Python `datetime` comparison maps directly to `Int` comparison.
* The SQLite database is a `Store` of three lists of records, one per table,
  keyed by their primary keys; `SELECT ... WHERE key = ?` is `List.find?`,
  `UPDATE ... WHERE key = ?` is a `List.map` that rewrites matching rows,
  `INSERT OR REPLACE` removes the old row for the key and conses a new one.
* Randomness (`secrets.token_urlsafe`, `secrets.token_bytes`) is passed in as
  an explicit argument.
* Network calls made with `httpx` are passed in as an explicit oracle value
  describing the response of the provider; an `Except` value distinguishes a
  Python exception escaping a function from a returned value.
* A JWT is either a payload validly signed with the configured symmetric key
  (`Token.signed p`) or an unparseable / wrongly-signed string
  (`Token.malformed`): with a secret symmetric key these are the only
  observable classes. PyJWT `jwt.decode` with default options verifies the
  signature and the `exp` claim (raising `ExpiredSignatureError`, a subclass
  of `InvalidTokenError`, when `exp <= now`).
-/

namespace McpAuth

/-! ## Data model: the three SQLite tables of `server/storage.py` -/

/-- Row of the `sessions` table (`storage.py` lines 24-33). -/
structure SessionRecord where
  jti : String
  user_sub : String
  user_email : String
  expires_at : Int
  revoked : Bool
deriving DecidableEq

/-- Row of the `user_tokens` table (`storage.py` lines 36-45). -/
structure UserTokenRecord where
  user_sub : String
  user_email : String
  access_token : String
  refresh_token : String
  token_expires_at : Int
deriving DecidableEq

/-- Row of the `exchange_codes` table (`storage.py` lines 48-56). -/
structure ExchangeCodeRecord where
  code : String
  user_sub : String
  expires_at : Int
  used : Bool
deriving DecidableEq

/-- The SQLite database `mcp_sessions.db`. -/
structure Store where
  sessions : List SessionRecord
  user_tokens : List UserTokenRecord
  exchange_codes : List ExchangeCodeRecord
deriving DecidableEq

/-! ## Storage operations (`server/storage.py`) -/

/-- `Storage._save_session_sync`: `INSERT OR REPLACE INTO sessions (jti,
user_sub, user_email, expires_at) VALUES (?,?,?,?)`; the `revoked` column
takes its schema default `0`. -/
def save_session (jti user_sub user_email : String) (expires_at : Int)
    (s : Store) : Store :=
  { s with sessions :=
      ⟨jti, user_sub, user_email, expires_at, false⟩ ::
        s.sessions.filter (fun r => !(r.jti == jti)) }

/-- `Storage._get_session_sync`: `SELECT * FROM sessions WHERE jti = ? AND
revoked = 0`. -/
def get_session (s : Store) (jti : String) : Option SessionRecord :=
  s.sessions.find? (fun r => r.jti == jti && !r.revoked)

/-- `Storage._revoke_session_sync`: `UPDATE sessions SET revoked = 1 WHERE
jti = ?`. -/
def storage_revoke_session (jti : String) (s : Store) : Store :=
  { s with sessions :=
      s.sessions.map (fun r => if r.jti == jti then { r with revoked := true } else r) }

/-- `Storage._save_user_tokens_sync`: `INSERT OR REPLACE INTO user_tokens
... VALUES (?,?,?,?,?,CURRENT_TIMESTAMP)`. -/
def save_user_tokens (user_sub user_email access_token refresh_token : String)
    (token_expires_at : Int) (s : Store) : Store :=
  { s with user_tokens :=
      ⟨user_sub, user_email, access_token, refresh_token, token_expires_at⟩ ::
        s.user_tokens.filter (fun r => !(r.user_sub == user_sub)) }

/-- `Storage._get_user_tokens_sync`: `SELECT * FROM user_tokens WHERE
user_sub = ?`. -/
def get_user_tokens (s : Store) (user_sub : String) : Option UserTokenRecord :=
  s.user_tokens.find? (fun r => r.user_sub == user_sub)

/-- `Storage._save_exchange_code_sync`: `INSERT INTO exchange_codes (code,
user_sub, expires_at) VALUES (?,?,?)`; `used` takes its schema default `0`. -/
def save_exchange_code (code user_sub : String) (expires_at : Int)
    (s : Store) : Store :=
  { s with exchange_codes := ⟨code, user_sub, expires_at, false⟩ :: s.exchange_codes }

/-- The `SELECT user_sub, expires_at, used FROM exchange_codes WHERE code = ?`
of `Storage._use_exchange_code_sync`. -/
def find_exchange_code (l : List ExchangeCodeRecord) (code : String) :
    Option ExchangeCodeRecord :=
  l.find? (fun r => r.code == code)

/-- The `UPDATE exchange_codes SET used = 1 WHERE code = ?` of
`Storage._use_exchange_code_sync`: note the update is unconditional (no
`AND used = 0` clause). -/
def mark_exchange_code_used (code : String) (l : List ExchangeCodeRecord) :
    List ExchangeCodeRecord :=
  l.map (fun r => if r.code == code then { r with used := true } else r)

/-- `Storage._use_exchange_code_sync` run by a single thread from start to
finish: SELECT the row, return `None` if absent / `used` / expired
(`datetime.utcnow() > expires_at`), otherwise UPDATE `used = 1` and return
the `user_sub`. -/
def use_exchange_code (code : String) (now : Int) (s : Store) :
    Option String × Store :=
  match find_exchange_code s.exchange_codes code with
  | none => (none, s)
  | some r =>
    if r.used then (none, s)
    else if now > r.expires_at then (none, s)
    else (some r.user_sub,
      { s with exchange_codes := mark_exchange_code_used code s.exchange_codes })

/-! ## JWT model (`server/auth/session.py`, PyJWT) -/

/-- Claim set of a JWT produced by `SessionManager.create_session`;
`payload.get("jti")` can be absent on foreign tokens, hence `Option`. -/
structure JwtPayload where
  jti : Option String
  sub : String
  email : String
  iat : Int
  exp : Int
deriving DecidableEq

/-- A presented bearer token: with a secret symmetric signing key the only
observable classes are a validly signed payload and everything else
(malformed, wrong signature, wrong algorithm). -/
inductive Token where
  | signed (p : JwtPayload)
  | malformed
deriving DecidableEq

/-- PyJWT exception classes raised by `jwt.decode`;
`ExpiredSignatureError` is a subclass of `InvalidTokenError`, so
`except jwt.InvalidTokenError` catches both. -/
inductive JwtError where
  | expiredSignature
  | invalidToken
deriving DecidableEq

/-- `jwt.decode(token, key, algorithms=[alg])` with default options:
verifies the signature and then the `exp` claim
(PyJWT raises `ExpiredSignatureError` when `exp <= now`). -/
def jwt_decode (t : Token) (now : Int) : Except JwtError JwtPayload :=
  match t with
  | .malformed => .error .invalidToken
  | .signed p => if p.exp ≤ now then .error .expiredSignature else .ok p

/-- Python truthiness of `payload.get("jti")`: `None` and `""` are falsy. -/
def truthyOpt (o : Option String) : Bool :=
  match o with
  | none => false
  | some s => !(s == "")

/-! ## Session manager (`server/auth/session.py`) -/

/-- `settings.SESSION_DURATION_HOURS` (`config.py`: 24). -/
def SESSION_DURATION_HOURS : Int := 24

/-- `SessionManager.create_session`: fresh `jti` (passed in), `expires_at =
now + timedelta(hours=duration)`, save the session row, return the signed
JWT over `{jti, sub, email, iat, exp}`. -/
def create_session (user_sub user_email jti : String) (now : Int)
    (s : Store) : Token × Store :=
  let expires_at := now + SESSION_DURATION_HOURS * 3600
  let s1 := save_session jti user_sub user_email expires_at s
  (Token.signed ⟨some jti, user_sub, user_email, now, expires_at⟩, s1)

/-- `SessionManager.verify_session`: decode (signature + embedded `exp`),
require a truthy `jti`, look the session up (the query filters
`revoked = 0`), reject when the stored `expires_at` is in the past, else
return the payload; every failure is `None`. -/
def verify_session (t : Token) (now : Int) (s : Store) : Option JwtPayload :=
  match jwt_decode t now with
  | .error _ => none
  | .ok p =>
    if !truthyOpt p.jti then none
    else
      match p.jti with
      | none => none
      | some j =>
        match get_session s j with
        | none => none
        | some sr => if now > sr.expires_at then none else some p

/-- `SessionManager.revoke_session`: decode (PyJWT also verifies the embedded
`exp` here), and on a truthy `jti` set `revoked = 1` and return `True`;
on any `InvalidTokenError` (including `ExpiredSignatureError`) or a falsy
`jti`, return `False`. -/
def revoke_session (t : Token) (now : Int) (s : Store) : Bool × Store :=
  match jwt_decode t now with
  | .error _ => (false, s)
  | .ok p =>
    if truthyOpt p.jti then
      match p.jti with
      | none => (false, s)
      | some j => (true, storage_revoke_session j s)
    else (false, s)

/-- `SessionManager.create_exchange_code`: fresh random code (passed in),
`expires_at = now + timedelta(minutes=5)`, insert the row. -/
def create_exchange_code (user_sub code : String) (now : Int) (s : Store) :
    String × Store :=
  (code, save_exchange_code code user_sub (now + 300) s)

/-- `SessionManager.exchange_code_for_session`: redeem the code via
`use_exchange_code`; on a truthy `user_sub` look up the stored email
(best-effort, `""` when absent) and mint a fresh session with the fresh
`jti` passed in. -/
def exchange_code_for_session (code jti : String) (now : Int) (s : Store) :
    Option Token × Store :=
  match use_exchange_code code now s with
  | (none, s1) => (none, s1)
  | (some user_sub, s1) =>
    if user_sub == "" then (none, s1)
    else
      let user_email :=
        match get_user_tokens s1 user_sub with
        | some ut => ut.user_email
        | none => ""
      let (tok, s2) := create_session user_sub user_email jti now s1
      (some tok, s2)

/-! ## OAuth manager (`server/auth/oauth.py`) -/

/-- JSON body of a 2xx token-endpoint response, as the code reads it:
`tokens["access_token"]` (a `KeyError` escapes if absent),
`tokens.get("refresh_token", ...)`, `tokens.get("expires_in", 3600)`. -/
structure TokenJson where
  access_token : Option String
  refresh_token : Option String
  expires_in : Option Int
deriving DecidableEq

/-- Outcome of one `httpx` POST to the token endpoint followed by
`raise_for_status()`: either some `httpx.HTTPError` (transport failure or
non-2xx status) or the parsed JSON body. -/
inductive HttpResult where
  | failure
  | success (j : TokenJson)
deriving DecidableEq

/-- A Python exception escaping a coroutine in our model. -/
inductive PyExn where
  | keyError
deriving DecidableEq

/-- `OAuthManager.refresh_access_token`. Result components: the returned
value (or escaping exception), the store after the call, and whether the
token endpoint was contacted. Absent record or falsy `refresh_token`
(`""` or SQL NULL, both falsy under `user_tokens.get("refresh_token")`)
return `None` before any network activity; `except httpx.HTTPError` maps
any transport/HTTP failure to `None`; on success the new `access_token`
and `token_expires_at = now + expires_in` are upserted, reusing the stored
refresh token (`user_tokens.get("refresh_token", "")`). -/
def refresh_access_token (user_sub : String) (now : Int) (net : HttpResult)
    (s : Store) : Except PyExn (Option String) × Store × Bool :=
  match get_user_tokens s user_sub with
  | none => (.ok none, s, false)
  | some ut =>
    if ut.refresh_token == "" then (.ok none, s, false)
    else
      match net with
      | .failure => (.ok none, s, true)
      | .success j =>
        match j.access_token with
        | none => (.error .keyError, s, true)
        | some tok =>
          let expires_in := j.expires_in.getD 3600
          let s1 := save_user_tokens user_sub ut.user_email tok
            ut.refresh_token (now + expires_in) s
          (.ok (some tok), s1, true)

/-- `OAuthManager.get_valid_access_token`: absent record gives `None`; when
`datetime.utcnow() >= token_expires_at - timedelta(minutes=5)` it delegates
to `refresh_access_token`, otherwise it returns the stored token with no
write and no network call. -/
def get_valid_access_token (user_sub : String) (now : Int) (net : HttpResult)
    (s : Store) : Except PyExn (Option String) × Store × Bool :=
  match get_user_tokens s user_sub with
  | none => (.ok none, s, false)
  | some ut =>
    if now ≥ ut.token_expires_at - 300 then
      refresh_access_token user_sub now net s
    else (.ok (some ut.access_token), s, false)

/-- One entry of `OAuthManager._pkce_store`. -/
structure PkceData where
  code_verifier : String
  code_challenge : String
deriving DecidableEq

/-- `OAuthManager._pkce_store`: the in-memory dict from `state` to its PKCE
pair, modelled as an association list. -/
abbrev PkceStore := List (String × PkceData)

/-- `self._pkce_store.get(state)`. -/
def pkce_get (ps : PkceStore) (state : String) : Option PkceData :=
  (List.find? (fun e => e.1 == state) ps).map (·.2)

/-- `del self._pkce_store[state]`. -/
def pkce_del (ps : PkceStore) (state : String) : PkceStore :=
  List.filter (fun e => !(e.1 == state)) ps

/-- JSON body of a 2xx userinfo response: `userinfo["sub"]` plus optional
`email` and `name`. -/
structure UserinfoJson where
  sub : String
  email : Option String
  name : Option String
deriving DecidableEq

/-- Outcome of the userinfo GET followed by `raise_for_status()`. -/
inductive UserinfoResult where
  | failure
  | success (u : UserinfoJson)
deriving DecidableEq

/-- What `OAuthManager.exchange_code` produces for the caller. -/
structure ExchangeOutcome where
  user_sub : String
  user_email : String
  user_name : String
deriving DecidableEq

/-- Exceptions escaping `OAuthManager.exchange_code`:
`ValueError("Invalid state or PKCE data not found")`, an `httpx` error from
either provider call, or a `KeyError` on a malformed success body. -/
inductive ExchangeExn where
  | invalidState
  | httpError
  | keyError
deriving DecidableEq

/-- `OAuthManager.exchange_code`: look the `state` up in the PKCE store
(raising `ValueError` if absent), delete the entry, then POST to the token
endpoint, GET userinfo, and upsert the `UserTokenRecord` with
`token_expires_at = now + tokens.get("expires_in", 3600)`. The provider
responses arrive as oracles; errors from either call propagate (there is no
`except` here). Result components: value or exception, the PKCE store, the
database store. -/
def oauth_exchange_code (state : String) (tokenNet : HttpResult)
    (userNet : UserinfoResult) (now : Int) (ps : PkceStore) (s : Store) :
    Except ExchangeExn ExchangeOutcome × PkceStore × Store :=
  match pkce_get ps state with
  | none => (.error .invalidState, ps, s)
  | some _ =>
    let ps1 := pkce_del ps state
    match tokenNet with
    | .failure => (.error .httpError, ps1, s)
    | .success tokens =>
      match tokens.access_token with
      | none => (.error .keyError, ps1, s)
      | some access_token =>
        match userNet with
        | .failure => (.error .httpError, ps1, s)
        | .success ui =>
          let expires_in := tokens.expires_in.getD 3600
          let s1 := save_user_tokens ui.sub (ui.email.getD "") access_token
            (tokens.refresh_token.getD "") (now + expires_in) s
          (.ok ⟨ui.sub, ui.email.getD "", ui.name.getD ""⟩, ps1, s1)

/-! ## PKCE generation (`OAuthManager.generate_pkce`) -/

/-- The URL-safe base64 alphabet used by `base64.urlsafe_b64encode`. -/
def b64Alphabet : List Char :=
  ['A', 'B', 'C', 'D', 'E', 'F', 'G', 'H', 'I', 'J', 'K', 'L', 'M',
   'N', 'O', 'P', 'Q', 'R', 'S', 'T', 'U', 'V', 'W', 'X', 'Y', 'Z',
   'a', 'b', 'c', 'd', 'e', 'f', 'g', 'h', 'i', 'j', 'k', 'l', 'm',
   'n', 'o', 'p', 'q', 'r', 's', 't', 'u', 'v', 'w', 'x', 'y', 'z',
   '0', '1', '2', '3', '4', '5', '6', '7', '8', '9', '-', '_']

/-- Alphabet character for a 6-bit group. -/
def b64char (n : Nat) : Char := b64Alphabet.getD n 'A'

/-- `base64.urlsafe_b64encode` over a byte list (bytes as `Nat < 256`):
three input bytes become four alphabet characters; a final group of one or
two bytes is padded with `=`. -/
def b64urlEncode : List Nat → List Char
  | [] => []
  | [b1] => [b64char (b1 / 4), b64char (b1 % 4 * 16), '=', '=']
  | [b1, b2] =>
    [b64char (b1 / 4), b64char (b1 % 4 * 16 + b2 / 16), b64char (b2 % 16 * 4), '=']
  | b1 :: b2 :: b3 :: rest =>
    b64char (b1 / 4) :: b64char (b1 % 4 * 16 + b2 / 16) ::
      b64char (b2 % 16 * 4 + b3 / 64) :: b64char (b3 % 64) :: b64urlEncode rest

/-- Python `str.rstrip("=")`. -/
def rstripEq (cs : List Char) : List Char :=
  (cs.reverse.dropWhile (fun c => c == '=')).reverse

/-- `base64.urlsafe_b64encode(bs).decode("utf-8").rstrip("=")`. -/
def b64url_nopad (bs : List Nat) : String :=
  String.mk (rstripEq (b64urlEncode bs))

/-- `OAuthManager.generate_pkce`: `code_verifier` is the unpadded base64url
encoding of `secrets.token_bytes(32)` (the random bytes arrive as an
argument), `code_challenge` is the unpadded base64url encoding of
`hashlib.sha256(code_verifier.encode("utf-8")).digest()`; the SHA-256
digest function itself is an oracle argument. -/
def generate_pkce (randomBytes : List Nat) (sha256 : String → List Nat) :
    String × String :=
  let code_verifier := b64url_nopad randomBytes
  let code_challenge := b64url_nopad (sha256 code_verifier)
  (code_verifier, code_challenge)

/-! ## Interleaving model of `Storage._use_exchange_code_sync`

Each redeemer runs `_use_exchange_code_sync` in its own thread
(`asyncio.to_thread`) on its own SQLite connection. The function performs
two database statements: the SELECT (after which the `used` / expiry checks
are thread-local computation on the row already fetched) and the
unconditional `UPDATE exchange_codes SET used = 1 WHERE code = ?` with its
commit. SQLite serializes the individual statements but nothing ties the
two together, so a thread is modelled as two atomic steps against the
shared store. -/

/-- Progress of one thread through `_use_exchange_code_sync`:
before the SELECT; after the SELECT with the decision it computed from the
row it read; returned. -/
inductive ThreadState where
  | ready
  | checked (decision : Option String)
  | finished (result : Option String)
deriving DecidableEq

/-- The SELECT plus the thread-local checks of
`_use_exchange_code_sync`: what the thread decides from the row it read. -/
def thread_decide (code : String) (now : Int) (s : Store) : Option String :=
  match find_exchange_code s.exchange_codes code with
  | none => none
  | some r =>
    if r.used then none
    else if now > r.expires_at then none
    else some r.user_sub

/-- One atomic step of a thread: `ready` performs the SELECT; a `checked`
thread that decided to redeem performs the unconditional UPDATE and
returns; a failed check returns without touching the store. -/
def thread_step (code : String) (now : Int) :
    ThreadState → Store → ThreadState × Store
  | .ready, s => (.checked (thread_decide code now s), s)
  | .checked none, s => (.finished none, s)
  | .checked (some us), s =>
    (.finished (some us),
      { s with exchange_codes := mark_exchange_code_used code s.exchange_codes })
  | .finished r, s => (.finished r, s)

/-- Two concurrent redeemers of the same code sharing the database. -/
structure TwoThreads where
  th1 : ThreadState
  th2 : ThreadState
  db : Store
deriving DecidableEq

/-- Let the scheduler run one step of thread 1 (`true`) or thread 2
(`false`). -/
def sched_step (code : String) (now : Int) (pick1 : Bool) (c : TwoThreads) :
    TwoThreads :=
  if pick1 then
    let (t, s) := thread_step code now c.th1 c.db
    ⟨t, c.th2, s⟩
  else
    let (t, s) := thread_step code now c.th2 c.db
    ⟨c.th1, t, s⟩

/-- Run an interleaving (a list of scheduler choices). -/
def run_schedule (code : String) (now : Int) :
    List Bool → TwoThreads → TwoThreads
  | [], c => c
  | b :: rest, c => run_schedule code now rest (sched_step code now b c)

/-! ## Concrete fixtures for counterexamples and witnesses -/

/-- Payload of a credential issued for user1 at time 0 with a 24 h expiry. -/
def samplePayload : JwtPayload :=
  ⟨some "jti1", "user1", "user1@example.com", 0, 86400⟩

/-- The signed credential carrying `samplePayload`. -/
def sampleToken : Token := Token.signed samplePayload

/-- Store holding the unrevoked session behind `sampleToken`. -/
def sampleStore : Store :=
  ⟨[⟨"jti1", "user1", "user1@example.com", 86400, false⟩], [], []⟩

/-- `sampleStore` after the session behind `sampleToken` is revoked. -/
def revokedSampleStore : Store := storage_revoke_session "jti1" sampleStore

/-- Store holding one fresh, unexpired, unused exchange code. -/
def raceStore : Store := ⟨[], [], [⟨"codeA", "user1", 100, false⟩]⟩

/-- Store with a fresh exchange code and a token record for its user. -/
def freshCodeStore : Store :=
  ⟨[], [⟨"user1", "user1@example.com", "AT", "RT", 7200⟩],
    [⟨"codeB", "user1", 300, false⟩]⟩

/-- Store holding a session row whose persisted expiry is already past. -/
def staleSessionStore : Store :=
  ⟨[⟨"jti2", "user2", "user2@example.com", 500, false⟩], [], []⟩

/-- PKCE cache holding one pending authorization state. -/
def samplePkceStore : PkceStore := [("state1", ⟨"verifier1", "challenge1"⟩)]

/-- Store holding an expired, never redeemed exchange code. -/
def expiredCodeStore : Store := ⟨[], [], [⟨"codeC", "user3", 10, false⟩]⟩

/-! ## Helper lemmas -/

/-- Base64 alphabet characters are never the padding character. -/
theorem b64char_ne_pad (n : Nat) : b64char n ≠ '=' := by
  unfold b64char
  rcases Nat.lt_or_ge n b64Alphabet.length with h | h
  · rw [List.getD_eq_getElem _ _ h]
    have hmem := List.getElem_mem (l := b64Alphabet) (n := n) h
    have hall : ∀ x ∈ b64Alphabet, x ≠ '=' := by decide
    exact hall _ hmem
  · rw [List.getD_eq_default _ _ h]
    decide

/-- Encoding a byte list whose length is 2 mod 3 ends in a single padding
character preceded by an alphabet character. -/
theorem b64_ends_padded (bs : List Nat) (h : bs.length % 3 = 2) :
    ∃ cs c, b64urlEncode bs = cs ++ [c, '='] ∧ c ≠ '=' := by
  induction bs using b64urlEncode.induct with
  | case1 => simp at h
  | case2 b1 => simp at h
  | case3 b1 b2 =>
    exact ⟨[b64char (b1 / 4), b64char (b1 % 4 * 16 + b2 / 16)],
      b64char (b2 % 16 * 4), rfl, b64char_ne_pad _⟩
  | case4 b1 b2 b3 rest ih =>
    have h3 : rest.length % 3 = 2 := by
      simp only [List.length_cons] at h; omega
    obtain ⟨cs, c, henc, hc⟩ := ih h3
    refine ⟨b64char (b1 / 4) :: b64char (b1 % 4 * 16 + b2 / 16) ::
      b64char (b2 % 16 * 4 + b3 / 64) :: b64char (b3 % 64) :: cs, c, ?_, hc⟩
    simp [b64urlEncode, henc]

/-- Stripping one trailing pad from a list that ends in exactly one. -/
theorem rstripEq_snoc_pad (cs : List Char) (c : Char) (hc : c ≠ '=') :
    rstripEq (cs ++ [c, '=']) = cs ++ [c] := by
  unfold rstripEq
  have : (cs ++ [c, '=']).reverse = '=' :: c :: cs.reverse := by simp
  rw [this]
  rw [List.dropWhile_cons]
  simp [List.dropWhile_cons, hc]

/-- Length of the padded encoding: four output characters per three input
bytes, rounded up. -/
theorem b64_len (bs : List Nat) :
    (b64urlEncode bs).length = 4 * ((bs.length + 2) / 3) := by
  induction bs using b64urlEncode.induct with
  | case1 => simp [b64urlEncode]
  | case2 b1 => simp [b64urlEncode]
  | case3 b1 b2 => simp [b64urlEncode]
  | case4 b1 b2 b3 rest ih =>
    simp only [b64urlEncode, List.length_cons, ih]
    omega

/-- The unpadded base64url encoding of 32 bytes has 43 characters. -/
theorem b64url_nopad_len32 (bs : List Nat) (h : bs.length = 32) :
    (b64url_nopad bs).length = 43 := by
  have h2 : bs.length % 3 = 2 := by omega
  obtain ⟨cs, c, henc, hc⟩ := b64_ends_padded bs h2
  have hlen : (b64urlEncode bs).length = 44 := by rw [b64_len, h]
  rw [henc] at hlen
  simp at hlen
  unfold b64url_nopad
  rw [henc, rstripEq_snoc_pad _ _ hc]
  simp [String.length, hlen]

/-- After the unconditional UPDATE, the row found for the code is the old
row with `used` set. -/
theorem find_mark_used (l : List ExchangeCodeRecord) (code : String)
    (r : ExchangeCodeRecord) (h : find_exchange_code l code = some r) :
    find_exchange_code (mark_exchange_code_used code l) code =
      some { r with used := true } := by
  induction l with
  | nil => simp [find_exchange_code] at h
  | cons a t ih =>
    simp only [find_exchange_code, mark_exchange_code_used, List.map_cons] at h ⊢
    by_cases hc : (a.code == code) = true
    · rw [@List.find?_cons_of_pos _ (fun x => x.code == code) a t hc] at h
      injection h with h
      subst h
      simp [hc]
    · rw [@List.find?_cons_of_neg _ (fun x => x.code == code) a t hc] at h
      simp only [if_neg hc]
      have hne : ¬ ((fun x : ExchangeCodeRecord => x.code == code) a = true) := hc
      rw [@List.find?_cons_of_neg _ (fun x => x.code == code) a _ hne]
      exact ih h

/-- The `revoked = 0` filter of `_get_session_sync` hides a revoked jti. -/
theorem get_session_after_revoke (s : Store) (j : String) :
    get_session (storage_revoke_session j s) j = none := by
  unfold get_session storage_revoke_session
  simp only [List.find?_eq_none]
  intro x hx
  obtain ⟨y, hy, rfl⟩ := List.mem_map.1 hx
  by_cases hj : y.jti == j <;> simp [hj]

/-- A deleted PKCE state is no longer found. -/
theorem pkce_get_after_del (ps : PkceStore) (state : String) :
    pkce_get (pkce_del ps state) state = none := by
  unfold pkce_get pkce_del
  have hfind : List.find? (fun e => e.1 == state)
      (List.filter (fun e => !(e.1 == state)) ps) = none := by
    rw [List.find?_eq_none]
    intro e he
    have := (List.mem_filter.1 he).2
    simpa using this
  rw [hfind]
  rfl

/-- Running one redeemer thread to completion while the other stays idle
reproduces the sequential `use_exchange_code`: the two-step thread model
refines the single-threaded source function. -/
theorem thread_model_sequential (code : String) (now : Int) (s : Store) :
    run_schedule code now [true, true] ⟨.ready, .finished none, s⟩ =
      ⟨.finished (use_exchange_code code now s).1, .finished none,
        (use_exchange_code code now s).2⟩ := by
  simp only [run_schedule, sched_step, thread_step, use_exchange_code, thread_decide]
  rcases h : find_exchange_code s.exchange_codes code with _ | r
  · simp [thread_step]
  · by_cases hu : r.used
    · simp [thread_step, hu]
    · by_cases he : now > r.expires_at
      · simp [thread_step, hu, he]
      · simp [thread_step, hu, he]

/-! ## Claim theorems -/

/-- Claim C1, counterexample. The claim states that `revoke_session`
verifies only that the credential is parseable and succeeds even when the
embedded `exp` has elapsed. On a validly signed credential whose `exp`
(86400) lies before the current time (100000), `jwt.decode` raises
`ExpiredSignatureError`, which the `except jwt.InvalidTokenError` clause
catches, so the code returns `False` and leaves the store untouched —
refuting the claim at this input. -/
theorem C1_counterexample :
    (revoke_session sampleToken 100000 sampleStore).1 = false ∧
    (revoke_session sampleToken 100000 sampleStore).2 = sampleStore := by
  decide

/-- Claim C1, amended. `revoke_session` verifies signature and the embedded
expiry (the PyJWT default): for every validly signed credential whose
embedded `exp` has not elapsed and whose `jti` claim is present and
nonempty, it sets `revoked = true` for that session and returns true; it
returns false when the credential cannot be parsed and when the embedded
`exp` has elapsed. -/
theorem C1_revoke_checks_expiry_too (t : Token) (now : Int) (s : Store) :
    (∀ p j, t = Token.signed p → p.jti = some j → j ≠ "" → now < p.exp →
      revoke_session t now s = (true, storage_revoke_session j s)) ∧
    (revoke_session Token.malformed now s = (false, s)) ∧
    (∀ p, t = Token.signed p → p.exp ≤ now →
      revoke_session t now s = (false, s)) := by
  refine ⟨?_, ?_, ?_⟩
  · rintro p j rfl hj hne hlt
    simp [revoke_session, jwt_decode, not_le.2 hlt, hj, truthyOpt, hne]
  · simp [revoke_session, jwt_decode]
  · rintro p rfl hle
    simp [revoke_session, jwt_decode, hle]

/-- Witness for C1 amended: revoking a valid, unexpired credential flips the
revoked flag and returns true. -/
theorem C1_revoke_checks_expiry_too_witness :
    revoke_session sampleToken 100 sampleStore =
      (true, storage_revoke_session "jti1" sampleStore) :=
  (C1_revoke_checks_expiry_too sampleToken 100 sampleStore).1
    samplePayload "jti1" rfl rfl (by decide) (by decide)

/-- Claim C2. The claim demands an atomic check-and-set, with exactly one of
N concurrent redeemers succeeding. The code performs a SELECT and an
unconditional UPDATE as two separate statements, so under the interleaving
SELECT-1, SELECT-2, UPDATE-1, UPDATE-2 both redeemers of the same fresh,
unexpired code return the `user_sub` — both succeed, violating the claim;
under a serialized schedule the second redeemer fails as intended. This
refutes the required atomicity on the code as written (code bug: spec
section 5 forbids a plain read-then-write here). -/
theorem C2_interleaving_both_redeem :
    run_schedule "codeA" 0 [true, false, true, false]
        ⟨.ready, .ready, raceStore⟩ =
      ⟨.finished (some "user1"), .finished (some "user1"),
        ⟨[], [], [⟨"codeA", "user1", 100, true⟩]⟩⟩ ∧
    run_schedule "codeA" 0 [true, true, false, false]
        ⟨.ready, .ready, raceStore⟩ =
      ⟨.finished (some "user1"), .finished none,
        ⟨[], [], [⟨"codeA", "user1", 100, true⟩]⟩⟩ := by
  decide

/-- Claim C3. Sequential single use: redeeming a stored, unused, unexpired
exchange code (with a nonempty `user_sub`, as every code created by
`create_exchange_code` for a real user has) returns a freshly minted signed
credential for the `user_sub` of the code; the stored row then has
`used = true`, and every subsequent redemption of the same code returns
none and leaves the store unchanged, so the flag never returns to false. -/
theorem C3_exchange_code_single_use (code jti1 : String) (now1 : Int)
    (s : Store) (r : ExchangeCodeRecord)
    (hfind : find_exchange_code s.exchange_codes code = some r)
    (hused : r.used = false) (hexp : ¬ now1 > r.expires_at)
    (hsub : r.user_sub ≠ "") :
    ∃ tok s1,
      exchange_code_for_session code jti1 now1 s = (some tok, s1) ∧
      (∃ em, tok = Token.signed
        ⟨some jti1, r.user_sub, em, now1, now1 + SESSION_DURATION_HOURS * 3600⟩) ∧
      find_exchange_code s1.exchange_codes code = some { r with used := true } ∧
      (∀ jti2 now2, exchange_code_for_session code jti2 now2 s1 = (none, s1)) := by
  set sM : Store :=
    { s with exchange_codes := mark_exchange_code_used code s.exchange_codes } with hsM
  set em : String :=
    (match get_user_tokens sM r.user_sub with
     | some ut => ut.user_email
     | none => "") with hem
  set s1 : Store :=
    save_session jti1 r.user_sub em (now1 + SESSION_DURATION_HOURS * 3600) sM with hs1
  have huse : use_exchange_code code now1 s = (some r.user_sub, sM) := by
    simp [use_exchange_code, hfind, hused, hexp, hsM]
  have hne : (r.user_sub == "") = false := by simpa using hsub
  have heq : exchange_code_for_session code jti1 now1 s =
      (some (Token.signed ⟨some jti1, r.user_sub, em, now1,
        now1 + SESSION_DURATION_HOURS * 3600⟩), s1) := by
    simp only [exchange_code_for_session, huse, hne, create_session, Bool.false_eq_true,
      if_false]
  have hcodes : s1.exchange_codes = mark_exchange_code_used code s.exchange_codes := by
    simp [hs1, save_session, hsM]
  have hfind1 : find_exchange_code s1.exchange_codes code =
      some { r with used := true } := by
    rw [hcodes]
    exact find_mark_used s.exchange_codes code r hfind
  have huse2 : ∀ now2 : Int, use_exchange_code code now2 s1 = (none, s1) := by
    intro now2
    simp [use_exchange_code, hfind1]
  refine ⟨_, s1, heq, ⟨em, rfl⟩, hfind1, ?_⟩
  intro jti2 now2
  simp only [exchange_code_for_session, huse2]

/-- Witness for C3 on a concrete store with a fresh code. -/
theorem C3_exchange_code_single_use_witness :
    ∃ tok s1,
      exchange_code_for_session "codeB" "jtiNew" 10 freshCodeStore = (some tok, s1) ∧
      (∃ em, tok = Token.signed
        ⟨some "jtiNew", "user1", em, 10, 10 + SESSION_DURATION_HOURS * 3600⟩) ∧
      find_exchange_code s1.exchange_codes "codeB" =
        some ⟨"codeB", "user1", 300, true⟩ ∧
      (∀ jti2 now2, exchange_code_for_session "codeB" jti2 now2 s1 = (none, s1)) :=
  C3_exchange_code_single_use "codeB" "jtiNew" 10 freshCodeStore
    ⟨"codeB", "user1", 300, false⟩ (by decide) rfl (by decide) (by decide)

/-- Claim C4. Once `revoke_session` has succeeded on a credential (returning
true after setting `revoked = true` for its jti), `verify_session` of that
credential returns none at every later time — including times at which the
embedded `exp` has not yet elapsed — because the session lookup filters
`revoked = 0`. -/
theorem C4_revoked_session_never_verifies (t : Token) (now now2 : Int)
    (s s1 : Store) (h : revoke_session t now s = (true, s1)) :
    verify_session t now2 s1 = none := by
  cases t with
  | malformed => simp [revoke_session, jwt_decode] at h
  | signed p =>
    simp only [revoke_session, jwt_decode] at h
    by_cases hexp : p.exp ≤ now
    · simp [hexp] at h
    · simp only [if_neg hexp] at h
      cases hj : p.jti with
      | none => simp [hj, truthyOpt] at h
      | some j =>
        by_cases hne : j = ""
        · subst hne; simp [hj, truthyOpt] at h
        · simp only [hj, truthyOpt] at h
          simp [hne] at h
          obtain ⟨-, rfl⟩ := h
          simp only [verify_session, jwt_decode]
          by_cases hexp2 : p.exp ≤ now2
          · simp [hexp2]
          · simp [hexp2, hj, truthyOpt, hne, get_session_after_revoke]

/-- Witness for C4: the sample credential no longer verifies at time 50
(well before its embedded expiry 86400) after being revoked at time 10. -/
theorem C4_revoked_session_never_verifies_witness :
    verify_session sampleToken 50 revokedSampleStore = none :=
  C4_revoked_session_never_verifies sampleToken 10 50 sampleStore
    revokedSampleStore (by decide)

/-- Claim C5. Store-backed expiry: for a credential with a valid signature
whose session row is present and unrevoked (that is what the
`revoked = 0` lookup returning a row means), if the persisted `expires_at`
lies strictly before the current time then `verify_session` returns
none. -/
theorem C5_store_backed_expiry (p : JwtPayload) (j : String) (now : Int)
    (s : Store) (sr : SessionRecord) (hjti : p.jti = some j)
    (hsess : get_session s j = some sr) (hexp : now > sr.expires_at) :
    verify_session (Token.signed p) now s = none := by
  simp only [verify_session, jwt_decode]
  by_cases he : p.exp ≤ now
  · simp [he]
  · by_cases hne : j = ""
    · subst hne; simp [he, hjti, truthyOpt]
    · simp [he, hjti, truthyOpt, hne, hsess, hexp]

/-- Witness for C5: a credential whose embedded `exp` (1000) is still ahead
of the clock (600) fails verification because the stored row expired at
500. -/
theorem C5_store_backed_expiry_witness :
    verify_session (Token.signed ⟨some "jti2", "user2", "user2@example.com", 0, 1000⟩)
      600 staleSessionStore = none :=
  C5_store_backed_expiry ⟨some "jti2", "user2", "user2@example.com", 0, 1000⟩
    "jti2" 600 staleSessionStore ⟨"jti2", "user2", "user2@example.com", 500, false⟩
    rfl (by decide) (by decide)

/-- Claim C6. `get_valid_access_token`: with no stored record the result is
none with no store write and no network call; with a record and
`now < token_expires_at - 300` the stored token is returned unchanged, with
no write and no network call; with `now >= token_expires_at - 300` the call
is exactly `refresh_access_token` (so it returns the refreshed token, or
none when the refresh fails). -/
theorem C6_access_token_refresh_policy (user_sub : String) (now : Int)
    (net : HttpResult) (s : Store) :
    (get_user_tokens s user_sub = none →
      get_valid_access_token user_sub now net s = (Except.ok none, s, false)) ∧
    (∀ ut, get_user_tokens s user_sub = some ut →
      (now < ut.token_expires_at - 300 →
        get_valid_access_token user_sub now net s =
          (Except.ok (some ut.access_token), s, false)) ∧
      (now ≥ ut.token_expires_at - 300 →
        get_valid_access_token user_sub now net s =
          refresh_access_token user_sub now net s)) := by
  refine ⟨fun h => by simp [get_valid_access_token, h],
    fun ut h => ⟨fun hlt => ?_, fun hge => ?_⟩⟩
  · simp [get_valid_access_token, h, not_le.2 hlt]
  · simp [get_valid_access_token, h, hge]

/-- Witness for C6: a token that expires at 7200 queried at time 0 is
returned unchanged even though the network oracle would fail. -/
theorem C6_access_token_refresh_policy_witness :
    get_valid_access_token "user1" 0 HttpResult.failure freshCodeStore =
      (Except.ok (some "AT"), freshCodeStore, false) :=
  ((C6_access_token_refresh_policy "user1" 0 HttpResult.failure freshCodeStore).2
    ⟨"user1", "user1@example.com", "AT", "RT", 7200⟩ (by decide)).1 (by decide)

/-- Claim C7. `refresh_access_token` returns none rather than raising on
every enumerated failure mode: absent record (no network call), falsy
stored refresh token (no network call), and any transport/HTTP failure of
the token-endpoint call; moreover for every provider response of the
documented shape (a success body carries `access_token`) the function
returns a value instead of raising. -/
theorem C7_refresh_failures_return_none (user_sub : String) (now : Int) (s : Store) :
    (get_user_tokens s user_sub = none →
      ∀ net, refresh_access_token user_sub now net s = (Except.ok none, s, false)) ∧
    (∀ ut, get_user_tokens s user_sub = some ut → ut.refresh_token = "" →
      ∀ net, refresh_access_token user_sub now net s = (Except.ok none, s, false)) ∧
    (∀ ut, get_user_tokens s user_sub = some ut → ut.refresh_token ≠ "" →
      refresh_access_token user_sub now HttpResult.failure s =
        (Except.ok none, s, true)) ∧
    (∀ net, (∀ j, net = HttpResult.success j → j.access_token ≠ none) →
      ∃ v s2 called,
        refresh_access_token user_sub now net s = (Except.ok v, s2, called)) := by
  refine ⟨fun h net => by simp [refresh_access_token, h],
    fun ut h hrt net => by simp [refresh_access_token, h, hrt],
    fun ut h hrt => by simp [refresh_access_token, h, hrt],
    fun net hshape => ?_⟩
  rcases hut : get_user_tokens s user_sub with _ | ut
  · exact ⟨none, s, false, by simp [refresh_access_token, hut]⟩
  · by_cases hrt : ut.refresh_token = ""
    · exact ⟨none, s, false, by simp [refresh_access_token, hut, hrt]⟩
    · cases net with
      | failure => exact ⟨none, s, true, by simp [refresh_access_token, hut, hrt]⟩
      | success j =>
        rcases hat : j.access_token with _ | tok
        · exact absurd hat (hshape j rfl)
        · exact ⟨some tok,
            save_user_tokens user_sub ut.user_email tok ut.refresh_token
              (now + j.expires_in.getD 3600) s,
            true, by simp [refresh_access_token, hut, hrt, hat]⟩

/-- Witness for C7: a transport failure during refresh yields none, not an
exception, and the store is untouched. -/
theorem C7_refresh_failures_return_none_witness :
    refresh_access_token "user1" 0 HttpResult.failure freshCodeStore =
      (Except.ok none, freshCodeStore, true) :=
  (C7_refresh_failures_return_none "user1" 0 freshCodeStore).2.2.1
    ⟨"user1", "user1@example.com", "AT", "RT", 7200⟩ (by decide) (by decide)

/-- Claim C8. For every verifier/challenge pair produced by `generate_pkce`
from 32 random bytes: the challenge is the unpadded base64url encoding of
the SHA-256 digest of the verifier, and the verifier length (43) lies in
the PKCE-mandated range [43, 128]. -/
theorem C8_pkce_verifier_challenge (randomBytes : List Nat)
    (sha256digest : String → List Nat) (hlen : randomBytes.length = 32) :
    (generate_pkce randomBytes sha256digest).2 =
      b64url_nopad (sha256digest (generate_pkce randomBytes sha256digest).1) ∧
    43 ≤ (generate_pkce randomBytes sha256digest).1.length ∧
    (generate_pkce randomBytes sha256digest).1.length ≤ 128 := by
  have h1 : (generate_pkce randomBytes sha256digest).1 = b64url_nopad randomBytes := rfl
  have h43 := b64url_nopad_len32 randomBytes hlen
  refine ⟨rfl, ?_, ?_⟩ <;> simp [h1, h43]

/-- Witness for C8 on a concrete byte string and digest oracle. -/
theorem C8_pkce_verifier_challenge_witness :
    (generate_pkce (List.replicate 32 0) (fun _ => [])).2 =
      b64url_nopad ((fun _ : String => ([] : List Nat))
        (generate_pkce (List.replicate 32 0) (fun _ => [])).1) ∧
    43 ≤ (generate_pkce (List.replicate 32 0) (fun _ => [])).1.length ∧
    (generate_pkce (List.replicate 32 0) (fun _ => [])).1.length ≤ 128 :=
  C8_pkce_verifier_challenge (List.replicate 32 0) (fun _ => []) (by decide)

/-- Claim C9. `exchange_code` deletes the pending PKCE entry before the
token-endpoint call: when the token exchange fails, and likewise when the
subsequent userinfo call fails, the error propagates with the state already
removed from the cache and no `UserTokenRecord` written; a retried callback
with the same state then fails with the invalid-state error, whatever the
provider would answer. -/
theorem C9_pkce_state_spent_before_token_call (state : String) (ps : PkceStore)
    (s : Store) (now : Int) (pd : PkceData)
    (hstate : pkce_get ps state = some pd) :
    (∀ userNet, oauth_exchange_code state HttpResult.failure userNet now ps s =
      (Except.error ExchangeExn.httpError, pkce_del ps state, s)) ∧
    (∀ tokens a, tokens.access_token = some a →
      oauth_exchange_code state (HttpResult.success tokens) UserinfoResult.failure
          now ps s =
        (Except.error ExchangeExn.httpError, pkce_del ps state, s)) ∧
    (∀ tokenNet userNet now2,
      (oauth_exchange_code state tokenNet userNet now2 (pkce_del ps state) s).1 =
        Except.error ExchangeExn.invalidState) := by
  refine ⟨fun userNet => ?_, fun tokens a ha => ?_, fun tokenNet userNet now2 => ?_⟩
  · simp [oauth_exchange_code, hstate]
  · simp [oauth_exchange_code, hstate, ha]
  · simp [oauth_exchange_code, pkce_get_after_del]

/-- Witness for C9: with one pending state, a failing token exchange leaves
the cache without the state and the database untouched. -/
theorem C9_pkce_state_spent_before_token_call_witness :
    oauth_exchange_code "state1" HttpResult.failure UserinfoResult.failure 0
        samplePkceStore sampleStore =
      (Except.error ExchangeExn.httpError, pkce_del samplePkceStore "state1",
        sampleStore) :=
  (C9_pkce_state_spent_before_token_call "state1" samplePkceStore sampleStore 0
    ⟨"verifier1", "challenge1"⟩ (by decide)).1 UserinfoResult.failure

/-- Claim C10. Failed redemption is side-effect-free: for a code that is
unknown, already used, or expired, `use_exchange_code` returns none and the
store — in particular the `exchange_codes` table, so the `used` flag of an
expired never-redeemed code — is exactly unchanged. -/
theorem C10_failed_redemption_side_effect_free (code : String) (now : Int)
    (s : Store) :
    (find_exchange_code s.exchange_codes code = none →
      use_exchange_code code now s = (none, s)) ∧
    (∀ r, find_exchange_code s.exchange_codes code = some r → r.used = true →
      use_exchange_code code now s = (none, s)) ∧
    (∀ r, find_exchange_code s.exchange_codes code = some r → r.used = false →
      now > r.expires_at → use_exchange_code code now s = (none, s)) := by
  refine ⟨fun h => by simp [use_exchange_code, h],
    fun r h hu => by simp [use_exchange_code, h, hu],
    fun r h hu he => by simp [use_exchange_code, h, hu, he]⟩

/-- Witness for C10: redeeming an expired code at time 20 returns none and
the row keeps `used = false`. -/
theorem C10_failed_redemption_side_effect_free_witness :
    use_exchange_code "codeC" 20 expiredCodeStore = (none, expiredCodeStore) :=
  (C10_failed_redemption_side_effect_free "codeC" 20 expiredCodeStore).2.2
    ⟨"codeC", "user3", 10, false⟩ (by decide) rfl (by decide)

end McpAuth
